import Mathlib

/-!
Verification of the stretchtime countdown timer (src/main.rs).

The program keeps a single mutable struct `App` and advances it once per
tick from a terminal event loop.  This file gives a shallow embedding of
the state struct and of every operation the specification talks about:
`App::on_tick`, `App::reset` (the reset request), `App::toggle_auto_mode`,
`App::get_hhmmss`, the poll-timeout computation of `run_app`, and the
argument handling of `main`.  Machine integers (`i32`) are modelled as
`Int`: the only arithmetic performed on the counter is a decrement guarded
by `> 0` and a copy from the configured value, so no wrap-around is
reachable from parsed command-line inputs (which are range-checked by the
embedded parser exactly as Rust range-checks `i32` parsing).
-/

namespace Stretchtime

/-- Embeds the Rust struct `App` (src/main.rs, lines 25-33).  The two audio
handles `soloud` and `wav` are runtime resources with no influence on the
state transitions; the chime side effect they serve is exposed instead as
the `Bool` component returned by `on_tick`. -/
structure App where
  countdown_seconds : Int
  countdown_config : Int
  reset : Bool
  auto_mode : Bool
  sound_played : Bool
deriving DecidableEq

/-- Embeds `App::new` (lines 36-46): both counters start at the parsed
argument, all flags start false. -/
def App.new (seconds : Int) : App :=
  ⟨seconds, seconds, false, false, false⟩

/-- Condition of the first `if` of `App::on_tick` (line 49): the chime is
played exactly when the counter is zero and the sound has not been played. -/
def chimeFires (a : App) : Bool :=
  a.countdown_seconds == 0 && !a.sound_played

/-- First block of `App::on_tick` (lines 49-52): play the chime and set
`sound_played`. -/
def chimeStep (a : App) : App :=
  if chimeFires a then { a with sound_played := true } else a

/-- Second block of `App::on_tick` (lines 54-56): at zero with auto mode on,
request a reset. -/
def autoStep (a : App) : App :=
  if a.countdown_seconds == 0 && a.auto_mode then { a with reset := true } else a

/-- Third block of `App::on_tick` (lines 58-62): consume a pending reset,
restoring the configured duration and clearing `sound_played`. -/
def resetStep (a : App) : App :=
  if a.reset then
    { a with countdown_seconds := a.countdown_config, sound_played := false, reset := false }
  else a

/-- Fourth block of `App::on_tick` (lines 64-66): the guarded decrement. -/
def decStep (a : App) : App :=
  if a.countdown_seconds > 0 then { a with countdown_seconds := a.countdown_seconds - 1 } else a

/-- Embeds `App::on_tick` (lines 48-67): the four blocks run in source
order; the second component records whether `play_sound` was invoked during
the call. -/
def on_tick (a : App) : App × Bool :=
  (decStep (resetStep (autoStep (chimeStep a))), chimeFires a)

/-- Iterated `on_tick`: the state after `n` further ticks with no user
input in between. -/
def tickN (a : App) : Nat → App
  | 0 => a
  | n + 1 => (on_tick (tickN a n)).1

/-- Embeds the method `App::reset` (lines 84-86), renamed because the Rust
method shares its name with the struct field it sets.  It only raises the
`reset` flag; the flag is consumed by the next `on_tick`. -/
def requestReset (a : App) : App :=
  { a with reset := true }

/-- Embeds `App::toggle_auto_mode` (lines 88-90). -/
def toggle_auto_mode (a : App) : App :=
  { a with auto_mode := !a.auto_mode }

/-- Zero padding to a minimum width of two characters, as the Rust format
specifier of width 2 with the zero flag behaves on `i32`: a one-character
rendering gains a leading zero, anything longer (including any negative
number, whose rendering is at least two characters) is unchanged. -/
def rustPad2 (n : Int) : String :=
  let s := toString n
  if s.length < 2 then "0" ++ s else s

/-- Embeds `App::get_hhmmss` (lines 69-78).  Rust `i32` division and
remainder truncate toward zero, hence `Int.tdiv` and `Int.tmod`. -/
def get_hhmmss (a : App) : String :=
  let hours := a.countdown_seconds.tdiv 3600
  let minutes := (a.countdown_seconds.tmod 3600).tdiv 60
  let seconds := (a.countdown_seconds.tmod 3600).tmod 60
  rustPad2 hours ++ ":" ++ rustPad2 minutes ++ ":" ++ rustPad2 seconds
    ++ " (" ++ toString a.countdown_seconds ++ ")"

/-- The tick interval of `run_app` (line 167), in milliseconds. -/
def tick_rate : Nat := 1000

/-- Embeds `Duration::checked_sub` on millisecond counts: `none` exactly
when the subtraction would go negative. -/
def checkedSub (a b : Nat) : Option Nat :=
  if b ≤ a then some (a - b) else none

/-- Embeds the timeout computation of `run_app` (lines 173-175):
`checked_sub` of the elapsed time from the tick interval, with the
`unwrap_or_else` fallback of a zero duration. -/
def pollTimeout (elapsed : Nat) : Nat :=
  (checkedSub tick_rate elapsed).getD 0

/-- Digit-string value, most significant digit first. -/
def digitsToNat (l : List Char) : Nat :=
  l.foldl (fun acc c => acc * 10 + (c.toNat - 48)) 0

/-- Shared body of the `i32` parse: a nonempty all-digit tail, combined
with the sign, must fit the `i32` range. -/
def parseI32core (sign : Int) (l : List Char) : Option Int :=
  if l ≠ [] ∧ l.all Char.isDigit then
    let n : Int := sign * (digitsToNat l : Int)
    if -(2 ^ 31) ≤ n ∧ n ≤ 2 ^ 31 - 1 then some n else none
  else none

/-- Embeds `str::parse::<i32>` as used at line 123: an optional sign
followed by one or more ASCII digits, rejected on overflow of the `i32`
range; everything else is a parse error. -/
def parseI32 (s : String) : Option Int :=
  match s.toList with
  | [] => none
  | '+' :: rest => parseI32core 1 rest
  | '-' :: rest => parseI32core (-1) rest
  | l => parseI32core 1 l

/-- Outcome of the argument-handling prefix of `main` (lines 115-129),
which runs before any terminal manipulation: either the process prints the
given message and exits with the given status, or it proceeds into
terminal setup with the parsed duration. -/
inductive ArgOutcome where
  | exitError (msg : String) (code : Nat)
  | proceed (seconds : Int)
deriving DecidableEq

/-- Embeds lines 116-129 of `main`: `env::args` (program name included)
must have exactly two entries, and the second must parse as an `i32`;
otherwise the process prints to stdout and exits with status 1.  The
terminal is first touched by `enable_raw_mode` at line 131, strictly after
this phase, so an `exitError` outcome leaves the terminal unmodified. -/
def mainArgsPhase (args : List String) : ArgOutcome :=
  if args.length ≠ 2 then
    ArgOutcome.exitError "Requires only 1 argument: time in seconds" 1
  else
    match parseI32 (args.getD 1 "") with
    | some n => ArgOutcome.proceed n
    | none => ArgOutcome.exitError "Failure parsing argument: it must be a number" 1

/-- One state mutation of the event loop (lines 177-196): a tick, a reset
request (key r), or an auto-mode toggle (key a). -/
inductive Step : App → App → Prop
  | tick (a : App) : Step a (on_tick a).1
  | reqReset (a : App) : Step a (requestReset a)
  | toggle (a : App) : Step a (toggle_auto_mode a)

/-- States reachable from `a0` by any sequence of loop mutations. -/
inductive Reachable (a0 : App) : App → Prop
  | refl : Reachable a0 a0
  | tail {a b : App} : Reachable a0 a → Step a b → Reachable a0 b

/-- Range invariant of the counter, relative to the starting duration. -/
def RangeInv (cfg : Int) (a : App) : Prop :=
  0 ≤ a.countdown_seconds ∧ a.countdown_seconds ≤ a.countdown_config
    ∧ a.countdown_config = cfg

lemma reachable_invariant {P : App → Prop} (hP : ∀ x y, Step x y → P x → P y)
    {a0 a : App} (h0 : P a0) (h : Reachable a0 a) : P a := by
  induction h with
  | refl => exact h0
  | tail _ hs ih => exact hP _ _ hs ih

lemma reachable_tick {a0 a : App} (h : Reachable a0 a) :
    Reachable a0 (on_tick a).1 :=
  h.tail (Step.tick a)

lemma reachable_tickN (a0 : App) : ∀ n : Nat, Reachable a0 (tickN a0 n)
  | 0 => Reachable.refl
  | n + 1 => reachable_tick (reachable_tickN a0 n)

lemma tickN_fixed {a : App} (h : (on_tick a).1 = a) : ∀ n : Nat, tickN a n = a
  | 0 => rfl
  | n + 1 => by
      show (on_tick (tickN a n)).1 = a
      rw [tickN_fixed h n, h]

lemma rangeInv_tick {cfg : Int} {a : App} (h : RangeInv cfg a) :
    RangeInv cfg (on_tick a).1 := by
  obtain ⟨cs, cc, r, am, sp⟩ := a
  obtain ⟨h1, h2, h3⟩ := h
  simp only [on_tick, decStep, resetStep, autoStep, chimeStep, chimeFires, RangeInv] at *
  split_ifs <;> simp_all <;> omega

lemma rangeInv_step {cfg : Int} {a b : App} (hs : Step a b) (h : RangeInv cfg a) :
    RangeInv cfg b := by
  cases hs with
  | tick => exact rangeInv_tick h
  | reqReset => simpa [requestReset, RangeInv] using h
  | toggle => simpa [toggle_auto_mode, RangeInv] using h

lemma chimeInv_tick {a : App} (h : a.sound_played = true → a.countdown_seconds = 0) :
    (on_tick a).1.sound_played = true → (on_tick a).1.countdown_seconds = 0 := by
  obtain ⟨cs, cc, r, am, sp⟩ := a
  simp only [on_tick, decStep, resetStep, autoStep, chimeStep, chimeFires] at *
  cases sp with
  | true =>
    have hcs : cs = 0 := h rfl
    subst hcs
    split_ifs <;> simp_all
  | false =>
    split_ifs <;> simp_all

lemma chimeInv_step {a b : App} (hs : Step a b)
    (h : a.sound_played = true → a.countdown_seconds = 0) :
    b.sound_played = true → b.countdown_seconds = 0 := by
  cases hs with
  | tick => exact chimeInv_tick h
  | reqReset => simpa [requestReset] using h
  | toggle => simpa [toggle_auto_mode] using h

lemma reset_clears_sound {b : App}
    (hb : b.reset = true ∨ (b.countdown_seconds = 0 ∧ b.auto_mode = true)) :
    (on_tick b).1.sound_played = false := by
  obtain ⟨cs, cc, r, am, sp⟩ := b
  simp only [on_tick, decStep, resetStep, autoStep, chimeStep, chimeFires] at *
  rcases hb with hb | ⟨hb1, hb2⟩ <;> split_ifs <;> simp_all

lemma negOfNat_tmod (k n : Nat) :
    (-(Int.ofNat k)).tmod (Int.ofNat n) = -(Int.ofNat (k % n)) := by
  cases k with
  | zero => simp
  | succ j => rfl

lemma tmod_3600_tmod_60 (a : Int) : (a.tmod 3600).tmod 60 = a.tmod 60 := by
  rcases a with m | m
  · show (Int.ofNat (m % 3600)).tmod (Int.ofNat 60) = Int.ofNat (m % 60)
    show Int.ofNat (m % 3600 % 60) = Int.ofNat (m % 60)
    rw [Nat.mod_mod_of_dvd m (by norm_num)]
  · show (-(Int.ofNat ((m + 1) % 3600))).tmod (Int.ofNat 60)
      = -(Int.ofNat ((m + 1) % 60))
    rw [negOfNat_tmod, Nat.mod_mod_of_dvd _ (by norm_num)]

/-- Claim C1 (corrected).  With `auto_mode` on, the counter at zero and the
chime still pending, the single `on_tick` call fires the chime, then
applies the auto-requested reset in the same call (clearing `sound_played`
and the `reset` flag); but the trailing guarded decrement runs after the
reset, so the call ends with the counter at `countdown_config - 1`, not at
`countdown_config`. -/
theorem C1_auto_repeat_tick (a : App) (h0 : a.countdown_seconds = 0)
    (ha : a.auto_mode = true) (hs : a.sound_played = false)
    (hc : 0 < a.countdown_config) :
    (on_tick a).2 = true
    ∧ (on_tick a).1.sound_played = false
    ∧ (on_tick a).1.reset = false
    ∧ (on_tick a).1.countdown_seconds = a.countdown_config - 1
    ∧ (on_tick a).1.countdown_config = a.countdown_config := by
  obtain ⟨cs, cc, r, am, sp⟩ := a
  simp only at h0 ha hs hc
  subst h0 ha hs
  simp only [on_tick, decStep, resetStep, autoStep, chimeStep, chimeFires]
  split_ifs <;> simp_all

/-- Claim C1, the original statement refuted: from counter 0, auto mode on,
chime pending, duration 2, the tick ends with the counter at 1, not at the
configured 2. -/
theorem C1_counterexample :
    (on_tick ⟨0, 2, false, true, false⟩).1.countdown_seconds
      ≠ (⟨0, 2, false, true, false⟩ : App).countdown_config := by
  decide

/-- Claim C1 witness at duration 2. -/
theorem C1_witness :
    (on_tick ⟨0, 2, false, true, false⟩).2 = true
    ∧ (on_tick ⟨0, 2, false, true, false⟩).1.sound_played = false
    ∧ (on_tick ⟨0, 2, false, true, false⟩).1.reset = false
    ∧ (on_tick ⟨0, 2, false, true, false⟩).1.countdown_seconds
        = (⟨0, 2, false, true, false⟩ : App).countdown_config - 1
    ∧ (on_tick ⟨0, 2, false, true, false⟩).1.countdown_config
        = (⟨0, 2, false, true, false⟩ : App).countdown_config :=
  C1_auto_repeat_tick ⟨0, 2, false, true, false⟩ rfl rfl rfl (by decide)

/-- Claim C2 (corrected).  `requestReset` only raises the `reset` flag and
changes nothing else, so the reset takes effect only at the next `on_tick`;
that tick restores the configured duration and clears `sound_played`, but
the trailing guarded decrement then runs, so the call ends with the counter
at `countdown_config - 1` (for a positive configured duration), not at
`countdown_config`. -/
theorem C2_reset_next_tick (a : App) (hc : 0 < a.countdown_config) :
    requestReset a = { a with reset := true }
    ∧ (on_tick (requestReset a)).1.countdown_seconds = a.countdown_config - 1
    ∧ (on_tick (requestReset a)).1.sound_played = false
    ∧ (on_tick (requestReset a)).1.reset = false
    ∧ (on_tick (requestReset a)).1.countdown_config = a.countdown_config := by
  obtain ⟨cs, cc, r, am, sp⟩ := a
  simp only at hc
  refine ⟨rfl, ?_⟩
  simp only [on_tick, decStep, resetStep, autoStep, chimeStep, chimeFires, requestReset]
  split_ifs <;> simp_all

/-- Claim C2, the original statement refuted: from counter 5 of configured
10, a requested reset is applied by the next tick but the call ends at 9,
not at the configured 10. -/
theorem C2_counterexample :
    (on_tick (requestReset ⟨5, 10, false, false, false⟩)).1.countdown_seconds
      ≠ (⟨5, 10, false, false, false⟩ : App).countdown_config := by
  decide

/-- Claim C2 witness at counter 5 of configured 10. -/
theorem C2_witness :
    requestReset ⟨5, 10, false, false, false⟩
        = { (⟨5, 10, false, false, false⟩ : App) with reset := true }
    ∧ (on_tick (requestReset ⟨5, 10, false, false, false⟩)).1.countdown_seconds
        = (⟨5, 10, false, false, false⟩ : App).countdown_config - 1
    ∧ (on_tick (requestReset ⟨5, 10, false, false, false⟩)).1.sound_played = false
    ∧ (on_tick (requestReset ⟨5, 10, false, false, false⟩)).1.reset = false
    ∧ (on_tick (requestReset ⟨5, 10, false, false, false⟩)).1.countdown_config
        = (⟨5, 10, false, false, false⟩ : App).countdown_config :=
  C2_reset_next_tick ⟨5, 10, false, false, false⟩ (by decide)

/-- Claim C3 (confirmed).  From the initial state of any positive duration,
every state reachable by ticks, reset requests and auto-mode toggles keeps
the counter within zero and the configured duration, which itself never
changes; in particular the guarded decrement never drives the counter below
zero. -/
theorem C3_counter_in_range (cfg : Int) (a : App) (hcfg : 0 < cfg)
    (h : Reachable (App.new cfg) a) :
    0 ≤ a.countdown_seconds ∧ a.countdown_seconds ≤ a.countdown_config
      ∧ a.countdown_config = cfg :=
  reachable_invariant (fun _ _ hs hp => rangeInv_step hs hp)
    (by exact ⟨le_of_lt hcfg, le_refl cfg, rfl⟩) h

/-- Claim C3 witness at duration 2 and the initial state. -/
theorem C3_witness :
    0 ≤ (App.new 2).countdown_seconds
    ∧ (App.new 2).countdown_seconds ≤ (App.new 2).countdown_config
    ∧ (App.new 2).countdown_config = 2 :=
  C3_counter_in_range 2 (App.new 2) (by decide) Reachable.refl

/-- Claim C4 (corrected).  The guarantee needs auto mode off and no pending
reset (otherwise the same tick resets the state): then one `on_tick` from a
counter at zero with the chime pending fires exactly one chime, sets
`sound_played`, leaves the counter at zero, and every later tick leaves the
state unchanged and fires no further chime.  Also, in the duration-2 trace
the chime fires on the third tick (the first tick that starts at zero), not
on the second tick that reaches zero. -/
theorem C4_single_chime (a : App) (n : Nat)
    (h0 : a.countdown_seconds = 0) (h1 : a.sound_played = false)
    (h2 : a.auto_mode = false) (h3 : a.reset = false) :
    (on_tick a).2 = true
    ∧ (on_tick a).1 = { a with sound_played := true }
    ∧ tickN { a with sound_played := true } n = { a with sound_played := true }
    ∧ (on_tick (tickN { a with sound_played := true } n)).2 = false := by
  obtain ⟨cs, cc, r, am, sp⟩ := a
  simp only at h0 h1 h2 h3
  subst h0 h1 h2 h3
  have hfix : (on_tick ⟨0, cc, false, false, true⟩).1 = ⟨0, cc, false, false, true⟩ := by
    simp [on_tick, decStep, resetStep, autoStep, chimeStep, chimeFires]
  refine ⟨rfl, ?_, ?_, ?_⟩
  · simp [on_tick, decStep, resetStep, autoStep, chimeStep, chimeFires]
  · exact tickN_fixed hfix n
  · rw [tickN_fixed hfix n]
    simp [on_tick, chimeFires]

/-- Claim C4, the original statement refuted on both counts: with auto mode
on the tick does not leave the counter at zero, and in the duration-2 trace
the second tick (the one whose call ends at zero) does not fire the chime. -/
theorem C4_counterexample :
    (on_tick ⟨0, 2, false, true, false⟩).1.countdown_seconds ≠ 0
    ∧ (on_tick (tickN (App.new 2) 1)).2 ≠ true := by
  decide

/-- Claim C4 witness: the duration-2 trace.  After two ticks the counter is
at zero with the chime pending; the third tick fires it, the state is then
fixed and no later tick fires a second chime. -/
theorem C4_witness :
    (on_tick (tickN (App.new 2) 2)).2 = true
    ∧ (on_tick (tickN (App.new 2) 2)).1
        = { tickN (App.new 2) 2 with sound_played := true }
    ∧ tickN { tickN (App.new 2) 2 with sound_played := true } 5
        = { tickN (App.new 2) 2 with sound_played := true }
    ∧ (on_tick (tickN { tickN (App.new 2) 2 with sound_played := true } 5)).2 = false :=
  C4_single_chime (tickN (App.new 2) 2) 5 (by decide) (by decide) (by decide) (by decide)

/-- Claim C5 (corrected).  The exact-decrement guarantee needs no pending
reset: with the `reset` flag clear and the counter at least 1, one
`on_tick` decreases the counter by exactly 1 and leaves the configured
duration unchanged (and fires no chime). -/
theorem C5_decrement (a : App) (h1 : 1 ≤ a.countdown_seconds) (h2 : a.reset = false) :
    (on_tick a).1.countdown_seconds = a.countdown_seconds - 1
    ∧ (on_tick a).1.countdown_config = a.countdown_config := by
  obtain ⟨cs, cc, r, am, sp⟩ := a
  simp only at h1 h2
  subst h2
  simp only [on_tick, decStep, resetStep, autoStep, chimeStep, chimeFires]
  split_ifs <;> simp_all
  omega

/-- Claim C5, the original statement refuted: with a pending reset, counter
5 of configured 10 moves to 9 in one tick, not to 4. -/
theorem C5_counterexample :
    (on_tick ⟨5, 10, true, false, false⟩).1.countdown_seconds
      ≠ (⟨5, 10, true, false, false⟩ : App).countdown_seconds - 1 := by
  decide

/-- Claim C5 witness at counter 5 of configured 10, no pending reset. -/
theorem C5_witness :
    (on_tick ⟨5, 10, false, false, false⟩).1.countdown_seconds
        = (⟨5, 10, false, false, false⟩ : App).countdown_seconds - 1
    ∧ (on_tick ⟨5, 10, false, false, false⟩).1.countdown_config
        = (⟨5, 10, false, false, false⟩ : App).countdown_config :=
  C5_decrement ⟨5, 10, false, false, false⟩ (by decide) rfl

/-- Claim C6 (confirmed).  In every state reachable from any initial state,
`sound_played` holds only while the counter is at zero; and any tick that
applies a reset — whether from a pending manual request or auto-triggered
at zero — ends with `sound_played` cleared. -/
theorem C6_chime_only_at_zero (cfg : Int) (a b : App)
    (h : Reachable (App.new cfg) a)
    (hb : b.reset = true ∨ (b.countdown_seconds = 0 ∧ b.auto_mode = true)) :
    (a.sound_played = true → a.countdown_seconds = 0)
    ∧ (on_tick b).1.sound_played = false :=
  ⟨reachable_invariant (fun _ _ hs hp => chimeInv_step hs hp)
      (fun hsp => by simp [App.new] at hsp) h,
    reset_clears_sound hb⟩

/-- Claim C6 witness: after three ticks from duration 2 the chime has
played and the counter is indeed zero; a tick consuming a manual reset
request ends with `sound_played` cleared. -/
theorem C6_witness :
    (tickN (App.new 2) 3).countdown_seconds = 0
    ∧ (on_tick (requestReset (App.new 5))).1.sound_played = false :=
  ⟨(C6_chime_only_at_zero 2 (tickN (App.new 2) 3) (requestReset (App.new 5))
      (reachable_tickN (App.new 2) 3) (Or.inl rfl)).1 (by decide),
    (C6_chime_only_at_zero 2 (tickN (App.new 2) 3) (requestReset (App.new 5))
      (reachable_tickN (App.new 2) 3) (Or.inl rfl)).2⟩

/-- Claim C7 (confirmed).  For every state, `get_hhmmss` renders exactly
the hour count (counter divided by 3600), the minute count (counter mod
3600, divided by 60) and the second count (counter mod 60), each
zero-padded to two digits, followed by the raw counter in parentheses; at
counter 3661 this is the string 01:01:01 (3661). -/
theorem C7_format_display (a : App) :
    get_hhmmss a =
      rustPad2 (a.countdown_seconds.tdiv 3600) ++ ":"
        ++ rustPad2 ((a.countdown_seconds.tmod 3600).tdiv 60) ++ ":"
        ++ rustPad2 (a.countdown_seconds.tmod 60)
        ++ " (" ++ toString a.countdown_seconds ++ ")"
    ∧ get_hhmmss ⟨3661, 3661, false, false, false⟩ = "01:01:01 (3661)" := by
  constructor
  · simp only [get_hhmmss, tmod_3600_tmod_60]
  · rfl

/-- Claim C8 (confirmed).  The poll timeout of each loop iteration is the
1000 ms tick interval minus the elapsed time, clamped to zero once the
elapsed time reaches the interval; the checked subtraction signals the
would-be underflow as `none` and the fallback replaces it by zero, so the
computed timeout is never negative and never exceeds the interval. -/
theorem C8_poll_timeout (e : Nat) :
    pollTimeout e = (if e ≤ tick_rate then tick_rate - e else 0)
    ∧ pollTimeout e ≤ tick_rate
    ∧ (tick_rate < e → checkedSub tick_rate e = none) := by
  simp only [pollTimeout, checkedSub, tick_rate]
  split_ifs <;> simp_all

/-- Claim C9 (confirmed).  Whenever the argument vector (program name
included) does not have exactly two entries, or the single argument does
not parse as an `i32`, the argument phase of `main` ends in an error
outcome: a message printed to stdout and an exit with status 1, before the
terminal-setup calls that only the `proceed` outcome reaches. -/
theorem C9_arg_errors (args : List String)
    (h : args.length ≠ 2 ∨ parseI32 (args.getD 1 "") = none) :
    mainArgsPhase args
        = ArgOutcome.exitError "Requires only 1 argument: time in seconds" 1
    ∨ mainArgsPhase args
        = ArgOutcome.exitError "Failure parsing argument: it must be a number" 1 := by
  by_cases hlen : args.length = 2
  · rcases h with h | h
    · exact absurd hlen h
    · right
      unfold mainArgsPhase
      rw [if_neg (by omega), h]
  · left
    unfold mainArgsPhase
    rw [if_pos hlen]

/-- Claim C9 witness: a non-numeric argument is rejected, and so is a
missing argument. -/
theorem C9_witness :
    (mainArgsPhase ["stretchtime", "abc"]
        = ArgOutcome.exitError "Requires only 1 argument: time in seconds" 1
      ∨ mainArgsPhase ["stretchtime", "abc"]
        = ArgOutcome.exitError "Failure parsing argument: it must be a number" 1)
    ∧ (mainArgsPhase ["stretchtime"]
        = ArgOutcome.exitError "Requires only 1 argument: time in seconds" 1
      ∨ mainArgsPhase ["stretchtime"]
        = ArgOutcome.exitError "Failure parsing argument: it must be a number" 1) :=
  ⟨C9_arg_errors ["stretchtime", "abc"] (Or.inr (by decide)),
    C9_arg_errors ["stretchtime"] (Or.inl (by decide))⟩

/-- Claim C10 (confirmed).  The argument phase accepts any in-range parsed
integer — negative and zero included, with no positivity check — and on a
state whose counter is negative with no pending reset, `on_tick` is the
identity and fires no chime; hence each further tick keeps the state fixed,
the counter never reaches zero and the chime never fires. -/
theorem C10_negative_duration (prog s : String) (m : Int) (a : App) (n : Nat)
    (hp : parseI32 s = some m)
    (h1 : a.countdown_seconds < 0) (h2 : a.reset = false) :
    mainArgsPhase [prog, s] = ArgOutcome.proceed m
    ∧ on_tick a = (a, false)
    ∧ tickN a n = a
    ∧ (on_tick (tickN a n)).2 = false := by
  have hid : on_tick a = (a, false) := by
    obtain ⟨cs, cc, r, am, sp⟩ := a
    simp only at h1 h2
    subst h2
    simp only [on_tick, decStep, resetStep, autoStep, chimeStep, chimeFires]
    split_ifs <;> simp_all
    omega
  have hfix : ∀ k : Nat, tickN a k = a :=
    tickN_fixed (by rw [hid])
  refine ⟨?_, hid, hfix n, ?_⟩
  · simp [mainArgsPhase, hp]
  · rw [hfix n, hid]

/-- Claim C10 witness: the parser accepts -5 and 0 with no lower-bound
check, and the timer started at -5 is frozen: seven ticks later it is
unchanged and no chime has fired. -/
theorem C10_witness :
    mainArgsPhase ["stretchtime", "-5"] = ArgOutcome.proceed (-5)
    ∧ on_tick (App.new (-5)) = (App.new (-5), false)
    ∧ tickN (App.new (-5)) 7 = App.new (-5)
    ∧ (on_tick (tickN (App.new (-5)) 7)).2 = false
    ∧ mainArgsPhase ["stretchtime", "0"] = ArgOutcome.proceed 0 :=
  ⟨(C10_negative_duration "stretchtime" "-5" (-5) (App.new (-5)) 7
      (by decide) (by decide) rfl).1,
    (C10_negative_duration "stretchtime" "-5" (-5) (App.new (-5)) 7
      (by decide) (by decide) rfl).2.1,
    (C10_negative_duration "stretchtime" "-5" (-5) (App.new (-5)) 7
      (by decide) (by decide) rfl).2.2.1,
    (C10_negative_duration "stretchtime" "-5" (-5) (App.new (-5)) 7
      (by decide) (by decide) rfl).2.2.2,
    (C10_negative_duration "stretchtime" "0" 0 (App.new (-5)) 7
      (by decide) (by decide) rfl).1⟩

end Stretchtime
